import Mathlib

/-!
Shallow embedding of `localflavor/no/forms.py` (django-localflavor, Norwegian
form fields): the national identity number validator
(`NOSocialSecurityNumber`), the bank account validator
(`NOBankAccountNumber`) and the organisation number validator
(`NOOrganisationNumberField`).

Raw input strings are modelled as `List Char`.  Python `raise
ValidationError(...)` becomes `Except.error` carrying a tag naming the raise
site; the message actually attached to the raised error (the key into
`default_error_messages`) is recovered by the `messageKey` functions, since
distinguishability of failures in the source is a matter of which message is
raised.  Machine integers are `Nat` (all arithmetic in the source is small,
non-negative and overflow-free).  `datetime.date` construction, which raises

`ValueError` on a non-existent calendar date, is modelled by `mkDate` using
the proleptic Gregorian rules that `datetime` implements.

Regex conventions: `\d` is modelled as the ASCII digits `0`-`9` and the
anchor `$` as strict end of input (Python's `$` would additionally accept a
single trailing newline; no property here involves a newline).  The digit
list `map(int, list(value))` is modelled eagerly, as the Python 2 era
source reads.
-/

namespace NOForms

/-- Numeric value of an ASCII digit character, `int(c)` on a digit. -/
def digitVal (c : Char) : Nat := c.toNat - 48

/-- `int(s)` on a string of ASCII digits (most significant first). -/
def numOf (cs : List Char) : Nat := cs.foldl (fun a c => 10 * a + digitVal c) 0

/-- The structural check of `re.match(r'^\d{11}$', value)`:
exactly 11 ASCII digits. -/
def matches11Digits (cs : List Char) : Bool :=
  cs.length == 11 && cs.all Char.isDigit

/-- `sum([(a * b) for (a, b) in zip(aval, bval)])` — the helper
`multiply_reduce` of `NOSocialSecurityNumber.clean`; like Python `zip` it
stops at the shorter list. -/
def multiply_reduce (aval bval : List Nat) : Nat :=
  (List.zipWith (· * ·) aval bval).sum

/-! ### Calendar dates (`datetime.date`) -/

/-- A calendar date as produced by `datetime.date(year, month, day)`. -/
structure Date where
  year : Nat
  month : Nat
  day : Nat
  deriving DecidableEq, Repr

/-- Gregorian leap-year rule used by `datetime`. -/
def isLeap (y : Nat) : Bool :=
  y % 4 == 0 && (y % 100 != 0 || y % 400 == 0)

/-- Number of days in a month, per `datetime`. -/
def daysInMonth (y m : Nat) : Nat :=
  if m = 2 then (if isLeap y then 29 else 28)
  else if m = 4 ∨ m = 6 ∨ m = 9 ∨ m = 11 then 30
  else 31

/-- `datetime.date(y, m, d)` succeeds iff `1 ≤ y ≤ 9999`, `1 ≤ m ≤ 12` and
`1 ≤ d ≤ daysInMonth y m`; otherwise it raises `ValueError`. -/
def mkDate (y m d : Nat) : Option Date :=
  if 1 ≤ y ∧ y ≤ 9999 ∧ 1 ≤ m ∧ m ≤ 12 ∧ 1 ≤ d ∧ d ≤ daysInMonth y m then
    some ⟨y, m, d⟩
  else none

/-- One `birthday = datetime.date(y, m, d)` assignment inside a matching
branch of `_get_birthday`: an invalid date raises (`Except.error`), a valid
one overwrites the accumulator with `some` date. -/
def constructDate (y m d : Nat) : Except Unit (Option Date) :=
  match mkDate y m d with
  | some dt => Except.ok (some dt)
  | none => Except.error ()

namespace NOSocialSecurityNumber

/-- Raise sites of `NOSocialSecurityNumber.clean` (plus the `required` check
performed by the base `Field.validate` reached through `super().clean`). -/
inductive SSNError where
  | required
  | structural
  | date
  | checksum1
  | checksum2
  deriving DecidableEq, Repr

/-- The key into `default_error_messages` attached to the `ValidationError`
raised at each site: every raise in `NOSocialSecurityNumber` itself uses
`self.error_messages['invalid']`. -/
def SSNError.messageKey : SSNError → String
  | .required => "required"
  | .structural => "invalid"
  | .date => "invalid"
  | .checksum1 => "invalid"
  | .checksum2 => "invalid"

/-- One `if cond: birthday = datetime.date(y, m, d)` statement of
`_get_birthday`: a `ValueError` already raised by an earlier statement
propagates; otherwise, when the guard holds, the accumulator is overwritten
(raising on an invalid date), and when it does not, the accumulator is kept. -/
def birthdayStep (cond : Prop) [Decidable cond] (y m d : Nat)
    (prev : Except Unit (Option Date)) : Except Unit (Option Date) :=
  match prev with
  | Except.error e => Except.error e
  | Except.ok b => if cond then constructDate y m d else Except.ok b

/-- `NOSocialSecurityNumber._get_birthday`, lines 82-99: `birthday = None`,
then four sequential (non-`elif`) `if` statements, each possibly
overwriting `birthday` and each able to raise on an invalid date; the
`except ValueError` around the block is the `Except` error path.  The
innermost step is the first statement. -/
def get_birthday (day month year2 inum : Nat) : Except Unit (Option Date) :=
  birthdayStep (900 ≤ inum ∧ inum < 1000 ∧ 39 < year2) (1900 + year2) month day
    (birthdayStep (500 ≤ inum ∧ inum < 1000 ∧ year2 < 40) (2000 + year2) month day
      (birthdayStep (500 ≤ inum ∧ inum < 750 ∧ 54 < year2) (1800 + year2) month day
        (birthdayStep (0 ≤ inum ∧ inum < 500) (1900 + year2) month day
          (Except.ok none))))

/-- `day = int(value[:2])`. -/
def dayOf (value : List Char) : Nat := numOf (value.take 2)

/-- `month = int(value[2:4])`. -/
def monthOf (value : List Char) : Nat := numOf ((value.drop 2).take 2)

/-- `year2 = int(value[4:6])`. -/
def year2Of (value : List Char) : Nat := numOf ((value.drop 4).take 2)

/-- `inum = int(value[6:9])`. -/
def inumOf (value : List Char) : Nat := numOf ((value.drop 6).take 3)

/-- `self.birthday = self._get_birthday(value)` with the positional digit
extraction of lines 84-87. -/
def birthdayOf (value : List Char) : Except Unit (Option Date) :=
  get_birthday (dayOf value) (monthOf value) (year2Of value) (inumOf value)

/-- `NOSocialSecurityNumber._get_gender`: `value[8]` even → `'F'`,
odd → `'M'`. -/
def get_gender (value : List Char) : Char :=
  if digitVal (value.getD 8 '0') % 2 = 0 then 'F' else 'M'

/-- First checksum weight vector (`weight_1`, line 61). -/
def weight_1 : List Nat := [3, 7, 6, 1, 8, 9, 4, 5, 2, 1, 0]

/-- Second checksum weight vector (`weight_2`, line 62). -/
def weight_2 : List Nat := [5, 4, 3, 2, 7, 6, 5, 4, 3, 2, 1]

/-- `digits = map(int, list(value))`. -/
def digitsOf (value : List Char) : List Nat := value.map digitVal

/-- `NOSocialSecurityNumber.clean`, lines 49-72.  `required` is the base
`Field.validate` required-field check reached through `super().clean(value)`
(empty + required raises `'required'`); an empty value then short-circuits
to returning `''` before the structural regex.  On the main path the
birthday derivation (line 57) runs, and can raise, before the two checksum
checks of lines 67-70. -/
def clean (required : Bool) (value : List Char) : Except SSNError (List Char) :=
  if value = [] then
    (if required then Except.error .required else Except.ok [])
  else if ¬ matches11Digits value then Except.error .structural
  else
    match birthdayOf value with
    | Except.error _ => Except.error .date
    | Except.ok _ =>
      if multiply_reduce (digitsOf value) weight_1 % 11 ≠ 0 then
        Except.error .checksum1
      else if multiply_reduce (digitsOf value) weight_2 % 11 ≠ 0 then
        Except.error .checksum2
      else Except.ok value

/-- Century table as the spec words it: the ranked rule set evaluated in
order, first match wins, `none` when no rule matches. -/
def specCentury (inum year2 : Nat) : Option Nat :=
  if inum < 500 then some 1900
  else if 500 ≤ inum ∧ inum < 750 ∧ 54 < year2 then some 1800
  else if 500 ≤ inum ∧ inum < 1000 ∧ year2 < 40 then some 2000
  else if 900 ≤ inum ∧ inum < 1000 ∧ 39 < year2 then some 1900
  else none

end NOSocialSecurityNumber

namespace NOBankAccountNumber

/-- Raise sites of `NOBankAccountNumber.validate` (plus the `required` check
of the base `validate` reached through `super().validate`). -/
inductive BankError where
  | required
  | structural
  | length
  | checksum
  deriving DecidableEq, Repr

/-- The key into `default_error_messages` used at each raise site of
`NOBankAccountNumber.validate`: here the three failure kinds of the
validator body carry three different messages. -/
def BankError.messageKey : BankError → String
  | .required => "required"
  | .structural => "invalid"
  | .length => "invalid_length"
  | .checksum => "invalid_checksum"

/-- `weights = [5, 4, 3, 2, 7, 6, 5, 4, 3, 2]` (line 146). -/
def weights : List Nat := [5, 4, 3, 2, 7, 6, 5, 4, 3, 2]

/-- `result = sum(w * (int(x)) for w, x in zip(weights, bank_number))`
followed by `remainder = result % 11`, where `bank_number = value[:-1]`. -/
def bankRemainder (value : List Char) : Nat :=
  (List.zipWith (fun w x => w * digitVal x) weights value.dropLast).sum % 11

/-- `NOBankAccountNumber.validate`, lines 127-154.  `required` is the base
`CharField.validate` required-field check reached through
`super().validate(value)`; an empty value is then accepted outright
("It's alright to be empty.") before the digit and length checks. -/
def validate (required : Bool) (value : List Char) : Except BankError Unit :=
  if value = [] then
    (if required then Except.error .required else Except.ok ())
  else if ¬ value.all Char.isDigit then Except.error .structural
  else if value.length ≠ 11 then Except.error .length
  else if (if bankRemainder value = 0 then 0 else 11 - bankRemainder value) ≠
      digitVal (value.getLastD ' ') then
    Except.error .checksum
  else Except.ok ()

/-- `NOBankAccountNumber.to_python`, lines 156-160:
`value.replace('.', '').replace(' ', '')` after the empty short-circuit.
(The base `CharField.to_python` strips edge whitespace; removing every
space subsumes that for the space character.) -/
def to_python (value : List Char) : List Char :=
  if value = [] then []
  else (value.filter (fun c => c != '.')).filter (fun c => c != ' ')

/-- `NOBankAccountNumber.prepare_value`, lines 162-166:
`'{}.{}.{}'.format(value[0:4], value[4:6], value[6:11])` on the
`to_python` form. -/
def prepare_value (value : List Char) : List Char :=
  let v := to_python value
  if v = [] then []
  else v.take 4 ++ '.' :: ((v.drop 4).take 2 ++ '.' :: (v.drop 6).take 5)

end NOBankAccountNumber

namespace NOOrganisationNumberField

/-- Failure kinds of `NOOrganisationNumberField.clean`: the `required` and
length checks come from the base `Field`/`RegexField` validator machinery
reached through `super().clean`; `invalid` is both the `RegexValidator`
message and the checksum raise of the `clean` body (same key). -/
inductive OrgError where
  | required
  | invalid
  | min_length
  | max_length
  deriving DecidableEq, Repr

/-- Optional case-insensitive prefix group `(NO )?` of the organisation
number regex `^(NO )?(\d{3}) ?(\d{3}) ?(\d{3})( MVA)?$` (re.IGNORECASE).
Returns the literally matched characters (case preserved) and the rest.
When the first three characters look like the prefix but the group is not
taken, `\d{3}` would have to match a letter, so committing to the prefix
whenever it is present is equivalent to the regex's backtracking. -/
def orgPfx (cs : List Char) : List Char × List Char :=
  match cs with
  | a :: b :: ' ' :: rest =>
    if a.toLower = 'n' ∧ b.toLower = 'o' then ([a, b, ' '], rest) else ([], cs)
  | _ => ([], cs)

/-- One `(\d{3})` group. -/
def take3Digits : List Char → Option (List Char × List Char)
  | d1 :: d2 :: d3 :: rest =>
    if d1.isDigit ∧ d2.isDigit ∧ d3.isDigit then some ([d1, d2, d3], rest)
    else none
  | _ => none

/-- One optional separator `' ?'` before a `(\d{3})` group.  Consuming a
present space is equivalent to the regex's backtracking, because if the
space is left in place the following `\d` cannot match it. -/
def optSpace : List Char → List Char
  | ' ' :: rest => rest
  | cs => cs

/-- Optional case-insensitive suffix group `( MVA)?$`: either end of input,
or a literal space then `MVA` up to case, characters preserved as typed. -/
def orgSfx : List Char → Option (List Char)
  | [] => some []
  | [s, m, v, a] =>
    if s = ' ' ∧ m.toLower = 'm' ∧ v.toLower = 'v' ∧ a.toLower = 'a' then
      some [s, m, v, a]
    else none
  | _ => none

/-- Full match of `^(NO )?(\d{3}) ?(\d{3}) ?(\d{3})( MVA)?$` with
`re.IGNORECASE`: returns (prefix group, the 9 digits, suffix group). -/
def orgMatch (cs : List Char) : Option (List Char × List Char × List Char) :=
  match take3Digits (orgPfx cs).2 with
  | none => none
  | some (g1, r1) =>
    match take3Digits (optSpace r1) with
    | none => none
    | some (g2, r2) =>
      match take3Digits (optSpace r2) with
      | none => none
      | some (g3, r3) =>
        match orgSfx r3 with
        | none => none
        | some s => some ((orgPfx cs).1, g1 ++ g2 ++ g3, s)

/-- `NOOrganisationNumberField.to_python`, lines 207-213: on a match,
prefix + the 9 digits + suffix; otherwise the value unchanged. -/
def to_python (value : List Char) : List Char :=
  match orgMatch value with
  | some (p, number, s) => p ++ number ++ s
  | none => value

/-- `weights = [3, 2, 7, 6, 5, 4, 3, 2]` (line 226). -/
def org_weights : List Nat := [3, 2, 7, 6, 5, 4, 3, 2]

/-- Lines 220-236 of `NOOrganisationNumberField.clean`: check digit is the
ninth digit, weighted modulus-11 over the first eight, zero remainder
giving checksum 0.  A function of the 9-digit group alone. -/
def checksumOk (number : List Char) : Bool :=
  let checkdigit := digitVal (number.getLastD ' ')
  let digits := (number.take 8).map digitVal
  let result := (List.zipWith (· * ·) org_weights digits).sum
  let remainder := result % 11
  let checksum := if remainder = 0 then 0 else 11 - remainder
  checksum == checkdigit

/-- `NOOrganisationNumberField.clean`, lines 215-238.  `super().clean`
runs `to_python`, the required check, and the validators (the regex with
min_length 9 / max_length 18); then the body re-matches the cleaned value
and verifies the checksum over the 9 digits. -/
def clean (required : Bool) (value : List Char) : Except OrgError (List Char) :=
  let v := to_python value
  if v = [] then (if required then Except.error .required else Except.ok v)
  else
    match orgMatch v with
    | none => Except.error .invalid
    | some (_, number, _) =>
      if v.length < 9 then Except.error .min_length
      else if 18 < v.length then Except.error .max_length
      else if checksumOk number then Except.ok v
      else Except.error .invalid

end NOOrganisationNumberField

/-! ### Helper lemmas -/

theorem getLastD_mem_of_ne_nil {α : Type} (l : List α) (d : α) (h : l ≠ []) :
    l.getLastD d ∈ l := by
  rw [List.getLastD_eq_getLast?, List.getLast?_eq_getLast l h]
  exact List.getLast_mem h

theorem digitVal_le_nine (c : Char) (h : c.isDigit = true) : digitVal c ≤ 9 := by
  simp [Char.isDigit] at h
  have h2 : c.toNat ≤ 57 := h.2
  unfold digitVal
  omega

theorem constructDate_ok (y m d : Nat) (ob : Option Date)
    (h : constructDate y m d = Except.ok ob) : ob = some ⟨y, m, d⟩ := by
  unfold constructDate mkDate at h
  split_ifs at h with hv
  simpa using h.symm

namespace NOSocialSecurityNumber

theorem birthdayStep_pos (cond : Prop) [Decidable cond] (y m d : Nat)
    (b : Option Date) (h : cond) :
    birthdayStep cond y m d (Except.ok b) = constructDate y m d := by
  simp [birthdayStep, h]

theorem birthdayStep_neg (cond : Prop) [Decidable cond] (y m d : Nat)
    (b : Option Date) (h : ¬cond) :
    birthdayStep cond y m d (Except.ok b) = Except.ok b := by
  simp [birthdayStep, h]

theorem birthdayStep_error (cond : Prop) [Decidable cond] (y m d : Nat)
    (e : Unit) :
    birthdayStep cond y m d (Except.error e) = Except.error e := rfl

/-- Pass an arbitrary step result through steps whose guards fail. -/
theorem birthdayStep_neg_any (cond : Prop) [Decidable cond] (y m d : Nat)
    (r : Except Unit (Option Date)) (h : ¬cond) :
    birthdayStep cond y m d r = r := by
  cases r with
  | error e => rfl
  | ok b => simp [birthdayStep, h]

theorem get_birthday_rule1 (d m y i : Nat) (h : i < 500) :
    get_birthday d m y i = constructDate (1900 + y) m d := by
  rw [get_birthday, birthdayStep_pos _ _ _ _ _ ⟨Nat.zero_le i, h⟩,
    birthdayStep_neg_any _ _ _ _ _ (by omega),
    birthdayStep_neg_any _ _ _ _ _ (by omega),
    birthdayStep_neg_any _ _ _ _ _ (by omega)]

theorem get_birthday_rule2 (d m y i : Nat) (h : 500 ≤ i ∧ i < 750 ∧ 54 < y) :
    get_birthday d m y i = constructDate (1800 + y) m d := by
  rw [get_birthday, birthdayStep_neg _ _ _ _ _ (by omega),
    birthdayStep_pos _ _ _ _ _ h,
    birthdayStep_neg_any _ _ _ _ _ (by omega),
    birthdayStep_neg_any _ _ _ _ _ (by omega)]

theorem get_birthday_rule3 (d m y i : Nat) (h : 500 ≤ i ∧ i < 1000 ∧ y < 40) :
    get_birthday d m y i = constructDate (2000 + y) m d := by
  rw [get_birthday, birthdayStep_neg _ _ _ _ _ (by omega),
    birthdayStep_neg _ _ _ _ _ (by omega),
    birthdayStep_pos _ _ _ _ _ h,
    birthdayStep_neg_any _ _ _ _ _ (by omega)]

theorem get_birthday_rule4 (d m y i : Nat) (h : 900 ≤ i ∧ i < 1000 ∧ 39 < y) :
    get_birthday d m y i = constructDate (1900 + y) m d := by
  rw [get_birthday, birthdayStep_neg _ _ _ _ _ (by omega),
    birthdayStep_neg _ _ _ _ _ (by omega),
    birthdayStep_neg _ _ _ _ _ (by omega),
    birthdayStep_pos _ _ _ _ _ h]

theorem get_birthday_nomatch (d m y i : Nat) (hA : ¬ i < 500)
    (hB : ¬(500 ≤ i ∧ i < 750 ∧ 54 < y))
    (hC : ¬(500 ≤ i ∧ i < 1000 ∧ y < 40))
    (hD : ¬(900 ≤ i ∧ i < 1000 ∧ 39 < y)) :
    get_birthday d m y i = Except.ok none := by
  rw [get_birthday, birthdayStep_neg _ _ _ _ _ (by omega),
    birthdayStep_neg _ _ _ _ _ hB, birthdayStep_neg _ _ _ _ _ hC,
    birthdayStep_neg _ _ _ _ _ hD]

theorem matches11_facts (value : List Char) (h : matches11Digits value = true) :
    value.length = 11 ∧ value.all Char.isDigit = true ∧ value ≠ [] := by
  unfold matches11Digits at h
  rw [Bool.and_eq_true, beq_iff_eq] at h
  refine ⟨h.1, h.2, ?_⟩
  intro hnil
  rw [hnil] at h
  simp at h

/-- On the structural-check-passing path, `clean` is the birthday stage
followed by the two checksum checks. -/
theorem clean_main (required : Bool) (value : List Char)
    (h : matches11Digits value = true) :
    clean required value =
      match birthdayOf value with
      | Except.error _ => Except.error SSNError.date
      | Except.ok _ =>
        if multiply_reduce (digitsOf value) weight_1 % 11 ≠ 0 then
          Except.error SSNError.checksum1
        else if multiply_reduce (digitsOf value) weight_2 % 11 ≠ 0 then
          Except.error SSNError.checksum2
        else Except.ok value := by
  obtain ⟨-, -, hne⟩ := matches11_facts value h
  unfold clean
  rw [if_neg hne, if_neg (by simp [h])]

/-- Specialisation of `clean_main` when the birthday stage raises. -/
theorem clean_err_birthday (required : Bool) (value : List Char)
    (h : matches11Digits value = true)
    (hb : birthdayOf value = Except.error ()) :
    clean required value = Except.error SSNError.date := by
  rw [clean_main required value h, hb]

/-- Specialisation of `clean_main` when the birthday stage succeeds. -/
theorem clean_ok_birthday (required : Bool) (value : List Char)
    (h : matches11Digits value = true)
    (b : Option Date) (hb : birthdayOf value = Except.ok b) :
    clean required value =
      (if multiply_reduce (digitsOf value) weight_1 % 11 ≠ 0 then
        Except.error SSNError.checksum1
      else if multiply_reduce (digitsOf value) weight_2 % 11 ≠ 0 then
        Except.error SSNError.checksum2
      else Except.ok value) := by
  rw [clean_main required value h, hb]

end NOSocialSecurityNumber

open NOSocialSecurityNumber in
/-- C1: for every structurally valid 11-digit identity number whose birth
date is derived, the century comes from the ranked rule set over `inum` and
the two-digit year, evaluated in order with first match winning
(`specCentury`); in particular `inum=499, year=23` gives an 1900s date,
`inum=500, year=55` an 1800s date, `inum=999, year=39` a 2000s date and
`inum=999, year=40` a 1900s date. -/
theorem C1_century_ranked_rules :
    (∀ (value : List Char) (dt : Date), matches11Digits value = true →
      birthdayOf value = Except.ok (some dt) →
      ∃ c, specCentury (inumOf value) (year2Of value) = some c ∧
        dt.year = c + year2Of value) ∧
    get_birthday 1 1 23 499 = Except.ok (some ⟨1923, 1, 1⟩) ∧
    get_birthday 1 1 55 500 = Except.ok (some ⟨1855, 1, 1⟩) ∧
    get_birthday 1 1 39 999 = Except.ok (some ⟨2039, 1, 1⟩) ∧
    get_birthday 1 1 40 999 = Except.ok (some ⟨1940, 1, 1⟩) := by
  refine ⟨?_, rfl, rfl, rfl, rfl⟩
  intro value dt _ hbd
  unfold birthdayOf at hbd
  set i := inumOf value with hi
  set y := year2Of value with hy
  by_cases hA : i < 500
  · rw [get_birthday_rule1 _ _ _ _ hA] at hbd
    obtain rfl : dt = ⟨1900 + y, monthOf value, dayOf value⟩ := by
      simpa using constructDate_ok _ _ _ _ hbd
    exact ⟨1900, by unfold specCentury; rw [if_pos hA], rfl⟩
  · by_cases hB : 500 ≤ i ∧ i < 750 ∧ 54 < y
    · rw [get_birthday_rule2 _ _ _ _ hB] at hbd
      obtain rfl : dt = ⟨1800 + y, monthOf value, dayOf value⟩ := by
        simpa using constructDate_ok _ _ _ _ hbd
      exact ⟨1800, by unfold specCentury; rw [if_neg hA, if_pos hB], rfl⟩
    · by_cases hC : 500 ≤ i ∧ i < 1000 ∧ y < 40
      · rw [get_birthday_rule3 _ _ _ _ hC] at hbd
        obtain rfl : dt = ⟨2000 + y, monthOf value, dayOf value⟩ := by
          simpa using constructDate_ok _ _ _ _ hbd
        exact ⟨2000,
          by unfold specCentury; rw [if_neg hA, if_neg hB, if_pos hC], rfl⟩
      · by_cases hD : 900 ≤ i ∧ i < 1000 ∧ 39 < y
        · rw [get_birthday_rule4 _ _ _ _ hD] at hbd
          obtain rfl : dt = ⟨1900 + y, monthOf value, dayOf value⟩ := by
            simpa using constructDate_ok _ _ _ _ hbd
          exact ⟨1900, by
            unfold specCentury
            rw [if_neg hA, if_neg hB, if_neg hC, if_pos hD], rfl⟩
        · rw [get_birthday_nomatch _ _ _ _ hA hB hC hD] at hbd
          simp at hbd

open NOSocialSecurityNumber in
/-- C1 witness: the general part applied to the concrete valid identity
number `01010000110` (birth date 1900-01-01). -/
theorem C1_century_ranked_rules_witness :
    ∃ c, specCentury (inumOf ("01010000110".data))
        (year2Of ("01010000110".data)) = some c ∧
      (Date.mk 1900 1 1).year = c + year2Of ("01010000110".data) :=
  C1_century_ranked_rules.1 ("01010000110".data) ⟨1900, 1, 1⟩
    (by decide) (by rfl)

open NOSocialSecurityNumber in
/-- C2: the spec requires a present birth date on every validation
success, but the code accepts `01014075069` (both checksums pass) while
its `inum=750, year=40` matches none of the four century rules, so the
derived birthday is absent (`none`). -/
theorem C2_accepts_without_birthday :
    clean true ("01014075069".data) = Except.ok ("01014075069".data) ∧
    birthdayOf ("01014075069".data) = Except.ok none ∧
    750 ≤ inumOf ("01014075069".data) ∧ inumOf ("01014075069".data) < 900 ∧
    specCentury (inumOf ("01014075069".data))
      (year2Of ("01014075069".data)) = none :=
  ⟨rfl, rfl, by decide, by decide, rfl⟩

open NOSocialSecurityNumber in
/-- C3 (amended): birth-date derivation runs before the checksum checks;
an 11-digit input whose birthday stage raises fails with the date failure,
and a checksum failure is reported exactly when the birthday stage
succeeded and a weighted sum is nonzero mod 11. -/
theorem C3_date_stage_precedes_checksums (value : List Char)
    (h : matches11Digits value = true) :
    (birthdayOf value = Except.error () →
      clean true value = Except.error SSNError.date) ∧
    (∀ b : Option Date, birthdayOf value = Except.ok b →
      (multiply_reduce (digitsOf value) weight_1 % 11 ≠ 0 ∨
       multiply_reduce (digitsOf value) weight_2 % 11 ≠ 0) →
      clean true value = Except.error SSNError.checksum1 ∨
      clean true value = Except.error SSNError.checksum2) := by
  constructor
  · intro hbd
    exact clean_err_birthday true value h hbd
  · intro b hbd hsum
    rw [clean_ok_birthday true value h b hbd]
    rcases hsum with h1 | h2
    · left
      rw [if_pos h1]
    · by_cases h1 : multiply_reduce (digitsOf value) weight_1 % 11 ≠ 0
      · left
        rw [if_pos h1]
      · right
        rw [if_neg h1, if_pos h2]

open NOSocialSecurityNumber in
/-- C3 witness: `01010000000` has a valid encoded date (1900-01-01) and a
failing first checksum, so it is reported at a checksum raise site. -/
theorem C3_date_stage_precedes_checksums_witness :
    clean true ("01010000000".data) = Except.error SSNError.checksum1 ∨
    clean true ("01010000000".data) = Except.error SSNError.checksum2 :=
  (C3_date_stage_precedes_checksums ("01010000000".data) (by decide)).2
    (some ⟨1900, 1, 1⟩) (by rfl) (Or.inl (by decide))

open NOSocialSecurityNumber in
/-- C3 counterexample: `01130000000` fails the first checksum
(weighted sum mod 11 is nonzero), yet the reported failure is the
invalid-calendar-date raise (month 13), not a checksum raise: the claimed
step order (checksums before date derivation) does not hold. -/
theorem C3_counterexample :
    matches11Digits ("01130000000".data) = true ∧
    multiply_reduce (digitsOf ("01130000000".data)) weight_1 % 11 ≠ 0 ∧
    clean true ("01130000000".data) = Except.error SSNError.date ∧
    SSNError.date ≠ SSNError.checksum1 ∧
    SSNError.date ≠ SSNError.checksum2 :=
  ⟨by decide, by decide, rfl, by decide, by decide⟩

open NOSocialSecurityNumber in
/-- C4 (amended): for an 11-digit all-digit input whose birthday stage
does not raise, validation succeeds iff both weighted modulus-11 sums over
all 11 digits (weights `weight_1`, `weight_2`) vanish mod 11, and a
nonzero sum fails at the corresponding checksum raise site. -/
theorem C4_checksum_stage (value : List Char)
    (h : matches11Digits value = true)
    (b : Option Date) (hb : birthdayOf value = Except.ok b) :
    (clean true value = Except.ok value ↔
      (multiply_reduce (digitsOf value) weight_1 % 11 = 0 ∧
       multiply_reduce (digitsOf value) weight_2 % 11 = 0)) ∧
    (multiply_reduce (digitsOf value) weight_1 % 11 ≠ 0 →
      clean true value = Except.error SSNError.checksum1) ∧
    (multiply_reduce (digitsOf value) weight_1 % 11 = 0 →
      multiply_reduce (digitsOf value) weight_2 % 11 ≠ 0 →
      clean true value = Except.error SSNError.checksum2) := by
  rw [clean_ok_birthday true value h b hb]
  refine ⟨?_, ?_, ?_⟩
  · constructor
    · intro hok
      split_ifs at hok with h1 h2
      exact ⟨not_not.mp h1, not_not.mp h2⟩
    · rintro ⟨h1, h2⟩
      rw [if_neg (by omega), if_neg (by omega)]
  · intro h1
    rw [if_pos h1]
  · intro h1 h2
    rw [if_neg (by omega), if_pos h2]

open NOSocialSecurityNumber in
/-- C4 witness: the valid identity number `01010000110` (date 1900-01-01,
both weighted sums ≡ 0 mod 11) is accepted. -/
theorem C4_checksum_stage_witness :
    clean true ("01010000110".data) = Except.ok ("01010000110".data) :=
  (C4_checksum_stage ("01010000110".data) (by decide)
    (some ⟨1900, 1, 1⟩) (by rfl)).1.mpr ⟨by decide, by decide⟩

open NOSocialSecurityNumber in
/-- C4 counterexample: `32130000000` has a nonzero first weighted sum mod
11, but validation fails at the invalid-calendar-date raise (day 32,
month 13), not at a checksum raise site: "if either sum is nonzero modulo
11, validation fails with ChecksumMismatch" does not hold as stated. -/
theorem C4_counterexample :
    matches11Digits ("32130000000".data) = true ∧
    multiply_reduce (digitsOf ("32130000000".data)) weight_1 % 11 ≠ 0 ∧
    clean true ("32130000000".data) = Except.error SSNError.date ∧
    SSNError.date ≠ SSNError.checksum1 ∧
    SSNError.date ≠ SSNError.checksum2 :=
  ⟨by decide, by decide, rfl, by decide, by decide⟩

/-! ### Bank account claims -/

theorem digit_ne_sep (c : Char) (h : c.isDigit = true) :
    (c != '.') = true ∧ (c != ' ') = true := by
  simp [Char.isDigit] at h
  have h1 : 48 ≤ c.toNat := h.1
  constructor <;>
    (rw [bne_iff_ne]
     intro he
     rw [he] at h1
     exact absurd h1 (by decide))

/-- Removing periods then spaces leaves an all-digit list unchanged. -/
theorem strip_digits (l : List Char) (h : ∀ a ∈ l, a.isDigit = true) :
    (l.filter (fun c => c != '.')).filter (fun c => c != ' ') = l := by
  have h1 : l.filter (fun c => c != '.') = l :=
    List.filter_eq_self.mpr (fun a ha => (digit_ne_sep a (h a ha)).1)
  rw [h1]
  exact List.filter_eq_self.mpr (fun a ha => (digit_ne_sep a (h a ha)).2)

/-- Removing periods then spaces from the dotted 4+2+5 display grouping of
all-digit segments yields the concatenated segments. -/
theorem strip_format (l1 l2 l3 : List Char)
    (h1 : ∀ a ∈ l1, a.isDigit = true) (h2 : ∀ a ∈ l2, a.isDigit = true)
    (h3 : ∀ a ∈ l3, a.isDigit = true) :
    ((l1 ++ '.' :: (l2 ++ '.' :: l3)).filter (fun c => c != '.')).filter
      (fun c => c != ' ') = l1 ++ (l2 ++ l3) := by
  have hp : (l1 ++ '.' :: (l2 ++ '.' :: l3)).filter (fun c => c != '.') =
      l1 ++ (l2 ++ l3) := by
    rw [List.filter_append, List.filter_cons_of_neg (by decide),
      List.filter_append, List.filter_cons_of_neg (by decide),
      List.filter_eq_self.mpr (fun a ha => (digit_ne_sep a (h1 a ha)).1),
      List.filter_eq_self.mpr (fun a ha => (digit_ne_sep a (h2 a ha)).1),
      List.filter_eq_self.mpr (fun a ha => (digit_ne_sep a (h3 a ha)).1)]
  rw [hp, List.filter_append, List.filter_append,
    List.filter_eq_self.mpr (fun a ha => (digit_ne_sep a (h1 a ha)).2),
    List.filter_eq_self.mpr (fun a ha => (digit_ne_sep a (h2 a ha)).2),
    List.filter_eq_self.mpr (fun a ha => (digit_ne_sep a (h3 a ha)).2)]

namespace NOBankAccountNumber

theorem to_python_digits (value : List Char)
    (hd : value.all Char.isDigit = true) (hne : value ≠ []) :
    to_python value = value := by
  unfold to_python
  rw [if_neg hne]
  exact strip_digits value (List.all_eq_true.mp hd)

end NOBankAccountNumber

open NOBankAccountNumber in
/-- C5: an 11-digit all-digit account string whose weighted remainder over
the first 10 digits is 1 gives computed checksum 10, which can equal no
single check digit, so validation fails with the checksum failure whatever
the 11th digit is; in general acceptance means the 11th digit equals 0
when the remainder is 0 and `11 - remainder` otherwise. -/
theorem C5_remainder_one_rejected (value : List Char)
    (hd : value.all Char.isDigit = true) (hl : value.length = 11) :
    (bankRemainder value = 1 →
      validate true value = Except.error BankError.checksum) ∧
    (validate true value = Except.ok () ↔
      digitVal (value.getLastD ' ') =
        (if bankRemainder value = 0 then 0 else 11 - bankRemainder value)) := by
  have hne : value ≠ [] := by
    intro hnil
    rw [hnil] at hl
    simp at hl
  have hlast : (value.getLastD ' ').isDigit = true :=
    List.all_eq_true.mp hd _ (getLastD_mem_of_ne_nil value ' ' hne)
  have hle : digitVal (value.getLastD ' ') ≤ 9 := digitVal_le_nine _ hlast
  unfold validate
  rw [if_neg hne, if_neg (by simp [hd]), if_neg (not_not_intro hl)]
  constructor
  · intro h1
    rw [h1, if_neg (show ¬(1 : Nat) = 0 by norm_num),
      if_pos (show (11 - 1 : Nat) ≠ digitVal (value.getLastD ' ') by omega)]
  · set e : Nat :=
      if bankRemainder value = 0 then 0 else 11 - bankRemainder value with he
    constructor
    · intro hok
      by_cases hc : e ≠ digitVal (value.getLastD ' ')
      · rw [if_pos hc] at hok
        exact absurd hok (by simp)
      · omega
    · intro heq
      rw [if_neg (show ¬(e ≠ digitVal (value.getLastD ' ')) by omega)]

open NOBankAccountNumber in
/-- C5 witness: `00000000060` has weighted remainder 1 over its first 10
digits and is rejected with the checksum failure. -/
theorem C5_remainder_one_rejected_witness :
    validate true ("00000000060".data) = Except.error BankError.checksum :=
  (C5_remainder_one_rejected ("00000000060".data) (by decide) (by decide)).1
    (by decide)

open NOBankAccountNumber in
/-- C6: for every valid 11-digit canonical bank account number, the display
form is the 4+2+5 dot grouping, stripping it re-yields the canonical string
which re-validates, and normalization is the identity on canonical values;
concretely `8601.22.12358` strips to `86012212358` and formats back to
`8601.22.12358`. -/
theorem C6_bank_roundtrip :
    (∀ value : List Char, value.all Char.isDigit = true →
      value.length = 11 → validate true value = Except.ok () →
      prepare_value value =
        value.take 4 ++ '.' ::
          ((value.drop 4).take 2 ++ '.' :: (value.drop 6).take 5) ∧
      to_python value = value ∧
      to_python (prepare_value value) = value ∧
      validate true (to_python (prepare_value value)) = Except.ok ()) ∧
    to_python ("8601.22.12358".data) = ("86012212358".data) ∧
    prepare_value ("86012212358".data) = ("8601.22.12358".data) ∧
    validate true ("86012212358".data) = Except.ok () := by
  refine ⟨?_, rfl, rfl, rfl⟩
  intro value hd hl hv
  have hne : value ≠ [] := by
    intro hnil
    rw [hnil] at hl
    simp at hl
  have htp : to_python value = value := to_python_digits value hd hne
  have hfmt : prepare_value value =
      value.take 4 ++ '.' ::
        ((value.drop 4).take 2 ++ '.' :: (value.drop 6).take 5) := by
    unfold prepare_value
    rw [htp, if_neg hne]
  have hmem : ∀ a ∈ value, a.isDigit = true := List.all_eq_true.mp hd
  have f1 : ∀ a ∈ value.take 4, a.isDigit = true :=
    fun a ha => hmem a (List.mem_of_mem_take ha)
  have f2 : ∀ a ∈ (value.drop 4).take 2, a.isDigit = true :=
    fun a ha => hmem a (List.mem_of_mem_drop (List.mem_of_mem_take ha))
  have f3 : ∀ a ∈ (value.drop 6).take 5, a.isDigit = true :=
    fun a ha => hmem a (List.mem_of_mem_drop (List.mem_of_mem_take ha))
  have hstrip : to_python (prepare_value value) = value := by
    rw [hfmt]
    unfold to_python
    rw [if_neg (by simp), strip_format _ _ _ f1 f2 f3]
    have h5 : (value.drop 6).take 5 = value.drop 6 :=
      List.take_of_length_le (by rw [List.length_drop]; omega)
    have h6 : value.drop 6 = (value.drop 4).drop 2 := by
      rw [List.drop_drop]
    rw [h5, h6, List.take_append_drop, List.take_append_drop]
  refine ⟨hfmt, htp, hstrip, ?_⟩
  rw [hstrip]
  exact hv

open NOBankAccountNumber in
/-- C6 witness: the round-trip applied to the concrete valid account
number `86012212358`. -/
theorem C6_bank_roundtrip_witness :
    to_python (prepare_value ("86012212358".data)) = ("86012212358".data) ∧
    validate true (to_python (prepare_value ("86012212358".data))) =
      Except.ok () :=
  ⟨(C6_bank_roundtrip.1 ("86012212358".data) (by decide) (by decide)
      (by rfl)).2.2.1,
   (C6_bank_roundtrip.1 ("86012212358".data) (by decide) (by decide)
      (by rfl)).2.2.2⟩

/-! ### Organisation number, failure taxonomy and emptiness claims -/

open NOOrganisationNumberField in
/-- C7: `NO 987 654 325 MVA` and `987654325` both canonicalize (prefix +
digits with internal spaces removed + suffix), each canonical form
re-parses against the tolerant grammar, cleaning the raw forms and the
canonical forms all succeed (so the two canonical values agree on
acceptance), and the checksum predicate consumes only the 9 digits. -/
theorem C7_org_grammar_roundtrip :
    to_python ("NO 987 654 325 MVA".data) = ("NO 987654325 MVA".data) ∧
    to_python ("987654325".data) = ("987654325".data) ∧
    (orgMatch ("NO 987654325 MVA".data)).isSome = true ∧
    (orgMatch ("987654325".data)).isSome = true ∧
    clean true ("NO 987 654 325 MVA".data) =
      Except.ok ("NO 987654325 MVA".data) ∧
    clean true ("NO 987654325 MVA".data) =
      Except.ok ("NO 987654325 MVA".data) ∧
    clean true ("987654325".data) = Except.ok ("987654325".data) ∧
    checksumOk ("987654325".data) = true :=
  ⟨rfl, rfl, rfl, rfl, rfl, rfl, rfl, rfl⟩

open NOSocialSecurityNumber in
/-- C8 counterexample: three different identity-number failures —
structural (wrong length), checksum and invalid date — all raise the same
`'invalid'` message, so the identity-number validator's failure kinds are
not distinguishable by calling code, contrary to the claim. -/
theorem C8_counterexample :
    clean true ("0101000011".data) = Except.error SSNError.structural ∧
    clean true ("01010000001".data) = Except.error SSNError.checksum1 ∧
    clean true ("01139900000".data) = Except.error SSNError.date ∧
    SSNError.structural.messageKey = SSNError.checksum1.messageKey ∧
    SSNError.structural.messageKey = SSNError.date.messageKey :=
  ⟨rfl, rfl, rfl, rfl, rfl⟩

open NOSocialSecurityNumber NOBankAccountNumber in
/-- C8 (amended): the bank-account validator's three failure kinds carry
three pairwise distinct messages, but the identity-number validator
raises the single `'invalid'` message for structural, checksum and
calendar-date failures alike. -/
theorem C8_failure_distinguishability :
    validate true ("12a".data) = Except.error BankError.structural ∧
    validate true ("1234".data) = Except.error BankError.length ∧
    validate true ("00000000061".data) = Except.error BankError.checksum ∧
    BankError.structural.messageKey ≠ BankError.length.messageKey ∧
    BankError.structural.messageKey ≠ BankError.checksum.messageKey ∧
    BankError.length.messageKey ≠ BankError.checksum.messageKey ∧
    SSNError.structural.messageKey = "invalid" ∧
    SSNError.checksum1.messageKey = "invalid" ∧
    SSNError.checksum2.messageKey = "invalid" ∧
    SSNError.date.messageKey = "invalid" :=
  ⟨rfl, rfl, rfl, by decide, by decide, by decide, rfl, rfl, rfl, rfl⟩

open NOSocialSecurityNumber NOBankAccountNumber in
/-- C9 counterexample: with an optional field, the empty string is
accepted by both validators even though it fails the structural grammar
(it is not 11 digits), so emptiness is not handled "only by rejection
against the structural grammar". -/
theorem C9_counterexample :
    clean false [] = Except.ok [] ∧
    matches11Digits [] = false ∧
    validate false [] = Except.ok () ∧
    ([] : List Char).length ≠ 11 :=
  ⟨rfl, rfl, rfl, by decide⟩

open NOSocialSecurityNumber NOBankAccountNumber in
/-- C9 (amended): both validators special-case empty input internally —
an empty value short-circuits to success before any structural check when
the field is optional, and to the base-class required failure when
required; for nonempty input the required flag has no effect, so the
required-versus-optional policy is confined to emptiness. -/
theorem C9_empty_special_case :
    clean false [] = Except.ok [] ∧
    clean true [] = Except.error SSNError.required ∧
    validate false [] = Except.ok () ∧
    validate true [] = Except.error BankError.required ∧
    (∀ value : List Char, value ≠ [] →
      clean true value = clean false value) ∧
    (∀ value : List Char, value ≠ [] →
      validate true value = validate false value) := by
  refine ⟨rfl, rfl, rfl, rfl, ?_, ?_⟩
  · intro value hne
    unfold clean
    rw [if_neg hne, if_neg hne]
  · intro value hne
    unfold validate
    rw [if_neg hne, if_neg hne]

open NOSocialSecurityNumber in
/-- C9 witness: the required flag does not change the outcome on the
nonempty input `1`. -/
theorem C9_empty_special_case_witness :
    clean true ("1".data) = clean false ("1".data) :=
  C9_empty_special_case.2.2.2.2.1 ("1".data) (by decide)

open NOOrganisationNumberField in
/-- C10: canonicalization preserves the letter case of the matched prefix
and suffix: lowercase and uppercase inputs canonicalize to different
strings, and each canonical string still re-parses and cleans
successfully because matching ignores case. -/
theorem C10_case_preserved :
    to_python ("no 987 654 325 mva".data) = ("no 987654325 mva".data) ∧
    to_python ("NO 987 654 325 MVA".data) = ("NO 987654325 MVA".data) ∧
    ("no 987654325 mva".data) ≠ ("NO 987654325 MVA".data) ∧
    (orgMatch ("no 987654325 mva".data)).isSome = true ∧
    (orgMatch ("NO 987654325 MVA".data)).isSome = true ∧
    clean true ("no 987654325 mva".data) =
      Except.ok ("no 987654325 mva".data) ∧
    clean true ("NO 987654325 MVA".data) =
      Except.ok ("NO 987654325 MVA".data) :=
  ⟨rfl, rfl, by decide, rfl, rfl, rfl, rfl⟩

end NOForms
